import Mathlib

/-!
Verification of the premarket-breakout trading engine (`trading_bot.py`).

The engine is embedded shallowly:

* prices and volumes are exact rationals (`ℚ`);
* a bar's timestamp is a day index plus minutes-of-day;
* the Python dictionaries `premarket_levels`, `volume_history` and
  `open_trades` become functions `String → Option _` (`none` models an
  absent key);
* `process_bar` returns `Except Unit _`; the `error` value models the
  `KeyError` raised by `self.volume_history[ticker]` on an unknown ticker
  (the only statement executed before that lookup is nothing, so a failing
  call leaves the state unchanged);
* the call `datetime.now().date()` inside `update_premarket_levels` is
  modelled by an explicit `now_day` argument, the wall-clock day at the
  moment of the call.
-/

/-- `config.POSITION_SIZE` (contracts per trade). -/
def POSITION_SIZE : ℚ := 1

/-- `config.STOP_LOSS_BUFFER` (0.1% buffer beyond the premarket level). -/
def STOP_LOSS_BUFFER : ℚ := 1/1000

/-- A timestamp: absolute day index plus minutes of the day. -/
structure Timestamp where
  day : Int
  minutes : Nat
deriving DecidableEq, Repr

/-- A price/volume bar (`Dict` with keys timestamp/open/high/low/close/volume). -/
structure Bar where
  timestamp : Timestamp
  open_price : ℚ
  high : ℚ
  low : ℚ
  close : ℚ
  volume : ℚ
deriving DecidableEq, Repr

/-- Trade direction (`Direction` enum). -/
inductive Direction where
  | LONG
  | SHORT
deriving DecidableEq, Repr

/-- A single trade (`Trade` dataclass). -/
structure Trade where
  ticker : String
  direction : Direction
  entry_price : ℚ
  stop_loss : ℚ
  take_profit : ℚ
  entry_time : Timestamp
  exit_price : Option ℚ := none
  exit_time : Option Timestamp := none
  pnl : Option ℚ := none
  status : String := "OPEN"
deriving DecidableEq, Repr

/-- Premarket high and low (`PremarketLevels` dataclass). -/
structure PremarketLevels where
  high : ℚ
  low : ℚ
  date : Int
deriving DecidableEq, Repr

/-- The engine state (`TradingBot` attributes). -/
structure TradingBot where
  tickers : List String
  risk_reward : ℚ
  premarket_levels : String → Option PremarketLevels
  completed_trades : List Trade
  volume_history : String → Option (List ℚ)
  open_trades : String → Option Trade

/-- `TradingBot.__init__(tickers, risk_reward)`: empty level map, empty
completed-trade log, an empty volume list for each constructor ticker
(and no entry for any other key), no open trades. -/
def TradingBot.init (tickers : List String) (risk_reward : ℚ) : TradingBot where
  tickers := tickers
  risk_reward := risk_reward
  premarket_levels := fun _ => none
  completed_trades := []
  volume_history := fun t => if t ∈ tickers then some [] else none
  open_trades := fun _ => none

/-- The premarket filter of `update_premarket_levels`:
`time >= 04:00 and time < 09:30`, in minutes `[240, 570)`. -/
def in_premarket_window (b : Bar) : Bool :=
  decide (240 ≤ b.timestamp.minutes) && decide (b.timestamp.minutes < 570)

/-- `TradingBot.update_premarket_levels(ticker, data)`.  Returns the new
state together with a flag that is `true` exactly when the warning branch
("No premarket data") ran.  `now_day` stands for `datetime.now().date()`. -/
def update_premarket_levels (bot : TradingBot) (ticker : String)
    (data : List Bar) (now_day : Int) : TradingBot × Bool :=
  match data.filter in_premarket_window with
  | [] => (bot, true)
  | b :: bs =>
      let pm_high := (bs.map Bar.high).foldl max b.high
      let pm_low := (bs.map Bar.low).foldl min b.low
      ({ bot with
          premarket_levels := fun s =>
            if s = ticker then some ⟨pm_high, pm_low, now_day⟩
            else bot.premarket_levels s },
        false)

/-- `TradingBot.calculate_average_volume`: mean of the whole history when
it holds fewer than 20 entries (0 when empty), otherwise the mean of the
last 20 entries. -/
def calculate_average_volume (volumes : List ℚ) : ℚ :=
  if volumes.length < 20 then
    if volumes.isEmpty then 0 else volumes.sum / volumes.length
  else (volumes.drop (volumes.length - 20)).sum / 20

/-- `TradingBot.is_strong_volume`: volume at or above 150% of average. -/
def is_strong_volume (current_volume avg_volume : ℚ) : Bool :=
  decide (current_volume ≥ avg_volume * (3/2))

/-- The exit decision of `process_bar`: the stop-loss is checked first,
so when both levels are touched in the same bar the stop-loss wins. -/
def exit_level (tr : Trade) (bar : Bar) : Option ℚ :=
  if bar.low ≤ tr.stop_loss then some tr.stop_loss
  else if bar.high ≥ tr.take_profit then some tr.take_profit
  else none

/-- Closing an open trade at price `p` on the bar stamped `ts`:
records exit price/time, signed pnl scaled by `POSITION_SIZE`, and flips
the status to CLOSED. -/
def closeTrade (tr : Trade) (p : ℚ) (ts : Timestamp) : Trade :=
  { tr with
    exit_price := some p
    exit_time := some ts
    pnl := some (if tr.direction = Direction.LONG
      then (p - tr.entry_price) * POSITION_SIZE
      else (tr.entry_price - p) * POSITION_SIZE)
    status := "CLOSED" }

/-- The LONG trade opened on a bullish breakout:
`sl = high - high * STOP_LOSS_BUFFER`, `tp = entry + (entry - sl) * rr`. -/
def openLong (ticker : String) (levels : PremarketLevels) (bar : Bar)
    (rr : ℚ) : Trade :=
  let entry := bar.close
  let sl := levels.high - levels.high * STOP_LOSS_BUFFER
  let tp := entry + (entry - sl) * rr
  { ticker := ticker, direction := Direction.LONG, entry_price := entry,
    stop_loss := sl, take_profit := tp, entry_time := bar.timestamp }

/-- The SHORT trade opened on a bearish breakout:
`sl = low + low * STOP_LOSS_BUFFER`, `tp = entry - (sl - entry) * rr`. -/
def openShort (ticker : String) (levels : PremarketLevels) (bar : Bar)
    (rr : ℚ) : Trade :=
  let entry := bar.close
  let sl := levels.low + levels.low * STOP_LOSS_BUFFER
  let tp := entry - (sl - entry) * rr
  { ticker := ticker, direction := Direction.SHORT, entry_price := entry,
    stop_loss := sl, take_profit := tp, entry_time := bar.timestamp }

/-- `TradingBot.process_bar(ticker, bar)`.

Mirrors the source line by line: append the bar volume to the ticker's
volume history (a plain `[ticker]` lookup — `KeyError`, i.e. `.error`,
when the key is absent); bail out with `none` when no premarket levels
are stored; when a trade is open, run the exit check (stop-loss first)
and, on a hit, move the closed trade to the log, clear the slot and
return it; otherwise, with no open trade, at or after 09:30 and with
strong volume, open a LONG above the premarket high or a SHORT below the
premarket low, returning `none` either way. -/
def process_bar (bot : TradingBot) (ticker : String) (bar : Bar) :
    Except Unit (TradingBot × Option Trade) :=
  match bot.volume_history ticker with
  | none => .error ()
  | some vols =>
      let vols' := vols ++ [bar.volume]
      let bot1 : TradingBot :=
        { bot with volume_history := fun s =>
            if s = ticker then some vols' else bot.volume_history s }
      match bot1.premarket_levels ticker with
      | none => .ok (bot1, none)
      | some levels =>
          match bot1.open_trades ticker with
          | some tr =>
              match exit_level tr bar with
              | some p =>
                  let closed := closeTrade tr p bar.timestamp
                  .ok ({ bot1 with
                      completed_trades := bot1.completed_trades ++ [closed]
                      open_trades := fun s =>
                        if s = ticker then none else bot1.open_trades s },
                    some closed)
              | none => .ok (bot1, none)
          | none =>
              if 570 ≤ bar.timestamp.minutes then
                if is_strong_volume bar.volume (calculate_average_volume vols')
                then
                  if levels.high < bar.close then
                    .ok ({ bot1 with open_trades := fun s =>
                        if s = ticker then some (openLong ticker levels bar bot1.risk_reward)
                        else bot1.open_trades s },
                      none)
                  else if bar.close < levels.low then
                    .ok ({ bot1 with open_trades := fun s =>
                        if s = ticker then some (openShort ticker levels bar bot1.risk_reward)
                        else bot1.open_trades s },
                      none)
                  else .ok (bot1, none)
                else .ok (bot1, none)
              else .ok (bot1, none)

/-- One externally driven call on the engine: either a
`update_premarket_levels` call (with the wall-clock day it ran on) or a
`process_bar` call. -/
inductive Op where
  | update (ticker : String) (data : List Bar) (now_day : Int)
  | bar (ticker : String) (b : Bar)

/-- Effect of one call on the state.  A `process_bar` call that raises
(`KeyError`) mutates nothing: the failing lookup is the first statement. -/
def step (bot : TradingBot) : Op → TradingBot
  | .update t data day => (update_premarket_levels bot t data day).1
  | .bar t b =>
      match process_bar bot t b with
      | .ok (bot', _) => bot'
      | .error _ => bot

/-- Run a sequence of calls from a state. -/
def run (bot : TradingBot) : List Op → TradingBot
  | [] => bot
  | op :: ops => run (step bot op) ops

/-- Number of open trades an instrument's slot holds (0 or 1 by the shape
of `open_trades`). -/
def openCount (bot : TradingBot) (t : String) : Nat :=
  match bot.open_trades t with
  | none => 0
  | some _ => 1

/-- The open-trade slot the ticker's entry logic writes, read after a
`process_bar` call (`None` when the call raised or closed the trade). -/
def opened_after (bot : TradingBot) (t : String) (bar : Bar) : Option Trade :=
  (step bot (Op.bar t bar)).open_trades t

/-- Concrete fixtures: premarket band 16010/15990 for MNQ, session day 0. -/
def mnqLevels : PremarketLevels := ⟨16010, 15990, 0⟩

/-- A FLAT state for MNQ holding the band of `mnqLevels` and one prior
volume observation, as after one premarket session. -/
def scenarioA_bot : TradingBot :=
  { tickers := ["MNQ"], risk_reward := 2,
    premarket_levels := fun s => if s = "MNQ" then some mnqLevels else none,
    completed_trades := [],
    volume_history := fun s => if s = "MNQ" then some [0] else none,
    open_trades := fun _ => none }

/-- The first regular-hours bar of Scenario A: close 16020 above the
premarket high on strong volume. -/
def scenarioA_bar : Bar :=
  { timestamp := ⟨0, 570⟩, open_price := 16005, high := 16025, low := 16000,
    close := 16020, volume := 10000 }

/-- The open LONG trade of Scenario B, with the spec's quoted levels. -/
def scenarioB_trade : Trade :=
  { ticker := "MNQ", direction := Direction.LONG, entry_price := 16020,
    stop_loss := 1599401/100, take_profit := 1607198/100,
    entry_time := ⟨0, 570⟩ }

/-- A state for MNQ with the Scenario B LONG trade open. -/
def scenarioB_bot : TradingBot :=
  { tickers := ["MNQ"], risk_reward := 2,
    premarket_levels := fun s => if s = "MNQ" then some mnqLevels else none,
    completed_trades := [],
    volume_history := fun s => if s = "MNQ" then some [0, 10000] else none,
    open_trades := fun s => if s = "MNQ" then some scenarioB_trade else none }

/-- The Scenario B bar: low 15990 under the stop, high 16080 over the
target, in the same bar. -/
def scenarioB_bar : Bar :=
  { timestamp := ⟨0, 575⟩, open_price := 16020, high := 16080, low := 15990,
    close := 16000, volume := 8000 }

/-- C1: when a bar touches both exit levels of the open trade
(`bar.low ≤ stop_loss` and `bar.high ≥ take_profit`), `process_bar`
closes the trade at the stop-loss, never at the take-profit: the returned
trade carries `exit_price = some stop_loss`, it is appended to the
completed log, and the open slot is cleared. -/
theorem C1_tiebreak_stop_loss_wins
    (bot : TradingBot) (t : String) (bar : Bar) (vols : List ℚ)
    (levels : PremarketLevels) (tr : Trade)
    (hv : bot.volume_history t = some vols)
    (hl : bot.premarket_levels t = some levels)
    (ho : bot.open_trades t = some tr)
    (hsl : bar.low ≤ tr.stop_loss)
    (htp : tr.take_profit ≤ bar.high) :
    process_bar bot t bar = .ok
      ({ bot with
          volume_history := fun s =>
            if s = t then some (vols ++ [bar.volume]) else bot.volume_history s
          completed_trades :=
            bot.completed_trades ++ [closeTrade tr tr.stop_loss bar.timestamp]
          open_trades := fun s => if s = t then none else bot.open_trades s },
        some (closeTrade tr tr.stop_loss bar.timestamp))
    ∧ (closeTrade tr tr.stop_loss bar.timestamp).exit_price = some tr.stop_loss := by
  constructor
  · simp only [process_bar, hv, hl, ho, exit_level, hsl, if_true, if_pos]
  · simp [closeTrade]

/-- Witness for C1, the concrete Scenario B instance: the LONG trade open
at 16020 with stop 15994.01 and target 16071.98 meets a bar with low
15990 and high 16080; the exit is at 15994.01 and the pnl is -25.99. -/
theorem C1_tiebreak_stop_loss_wins_witness :
    scenarioB_bar.low ≤ scenarioB_trade.stop_loss
    ∧ scenarioB_trade.take_profit ≤ scenarioB_bar.high
    ∧ process_bar scenarioB_bot "MNQ" scenarioB_bar = .ok
        ({ scenarioB_bot with
            volume_history := fun s =>
              if s = "MNQ" then some ([0, 10000] ++ [scenarioB_bar.volume])
              else scenarioB_bot.volume_history s
            completed_trades := scenarioB_bot.completed_trades ++
              [closeTrade scenarioB_trade scenarioB_trade.stop_loss scenarioB_bar.timestamp]
            open_trades := fun s =>
              if s = "MNQ" then none else scenarioB_bot.open_trades s },
          some (closeTrade scenarioB_trade scenarioB_trade.stop_loss scenarioB_bar.timestamp))
    ∧ (closeTrade scenarioB_trade scenarioB_trade.stop_loss scenarioB_bar.timestamp).pnl
        = some (-2599/100) := by
  refine ⟨by norm_num [scenarioB_bar, scenarioB_trade],
          by norm_num [scenarioB_bar, scenarioB_trade],
          (C1_tiebreak_stop_loss_wins scenarioB_bot "MNQ" scenarioB_bar [0, 10000]
            mnqLevels scenarioB_trade rfl rfl rfl
            (by norm_num [scenarioB_bar, scenarioB_trade])
            (by norm_num [scenarioB_bar, scenarioB_trade])).1,
          by norm_num [closeTrade, scenarioB_trade, POSITION_SIZE]⟩

/-- C3: `calculate_average_volume` returns the arithmetic mean of all N
recorded volumes when N is at most 20, the mean of the most recent 20
when N exceeds 20 (the suffix kept has length exactly 20), and 0 on an
empty history. -/
theorem C3_rolling_average (volumes : List ℚ) :
    (volumes.length ≤ 20 → volumes ≠ [] →
        calculate_average_volume volumes = volumes.sum / volumes.length)
    ∧ (volumes = [] → calculate_average_volume volumes = 0)
    ∧ (20 < volumes.length →
        calculate_average_volume volumes
            = (volumes.drop (volumes.length - 20)).sum / 20
        ∧ (volumes.drop (volumes.length - 20)).length = 20) := by
  refine ⟨?_, ?_, ?_⟩
  · intro hle hne
    unfold calculate_average_volume
    rcases Nat.lt_or_ge volumes.length 20 with hlt | hge
    · simp [if_pos hlt, hne]
    · have h20 : volumes.length = 20 := le_antisymm hle hge
      rw [if_neg (by omega)]
      simp [h20]
  · intro he
    subst he
    simp [calculate_average_volume]
  · intro hgt
    unfold calculate_average_volume
    rw [if_neg (by omega)]
    exact ⟨rfl, by simp; omega⟩

/-- Witness for C3 at a two-element history: the average is the mean. -/
theorem C3_rolling_average_witness :
    ([4, 8] : List ℚ).length ≤ 20 ∧ ([4, 8] : List ℚ) ≠ []
    ∧ calculate_average_volume [4, 8]
        = ([4, 8] : List ℚ).sum / (([4, 8] : List ℚ).length : ℚ) := by
  refine ⟨by norm_num, by simp,
    (C3_rolling_average [4, 8]).1 (by norm_num) (by simp)⟩

/-- C6: when the premarket filter of the supplied bars is empty,
`update_premarket_levels` changes nothing — the whole state, previously
stored levels included, is returned as-is — and only the warning flag is
raised. -/
theorem C6_empty_premarket_keeps_state
    (bot : TradingBot) (t : String) (data : List Bar) (now_day : Int)
    (h : data.filter in_premarket_window = []) :
    update_premarket_levels bot t data now_day = (bot, true) := by
  unfold update_premarket_levels
  rw [h]

/-- Witness for C6: a single regular-hours bar (10:00) filters to nothing;
the prior stored levels for MNQ survive untouched and the warning fires. -/
theorem C6_empty_premarket_keeps_state_witness :
    ([⟨⟨0, 600⟩, 16000, 16010, 15990, 16005, 500⟩] : List Bar).filter
        in_premarket_window = []
    ∧ update_premarket_levels scenarioA_bot "MNQ"
        [⟨⟨0, 600⟩, 16000, 16010, 15990, 16005, 500⟩] 9 = (scenarioA_bot, true)
    ∧ (update_premarket_levels scenarioA_bot "MNQ"
        [⟨⟨0, 600⟩, 16000, 16010, 15990, 16005, 500⟩] 9).1.premarket_levels "MNQ"
        = some mnqLevels := by
  refine ⟨by decide, C6_empty_premarket_keeps_state scenarioA_bot "MNQ" _ 9 (by decide), ?_⟩
  rw [C6_empty_premarket_keeps_state scenarioA_bot "MNQ" _ 9 (by decide)]
  rfl

/-- C2: the at-most-one-open-trade-per-instrument invariant.  Every state
reachable by any call sequence from a fresh engine has an open-trade
count of at most 1 per instrument (the slot is `Option`-shaped, exactly
like the `Dict[str, Optional[Trade]]` it models); moreover a successful
`process_bar` call that returns a closed trade leaves the slot empty, and
a call made while a trade is open either closes that very trade or keeps
it — it never replaces it with a new entry. -/
theorem C2_at_most_one_open_trade :
    (∀ (tickers : List String) (rr : ℚ) (ops : List Op) (t : String),
        openCount (run (TradingBot.init tickers rr) ops) t ≤ 1)
    ∧ (∀ (bot : TradingBot) (t : String) (bar : Bar) (bot' : TradingBot)
        (res : Option Trade), process_bar bot t bar = .ok (bot', res) →
        ((∀ tr, res = some tr → bot'.open_trades t = none)
          ∧ (∀ tr, bot.open_trades t = some tr →
              bot'.open_trades t = none ∨ bot'.open_trades t = some tr))) := by
  constructor
  · intro tickers rr ops t
    unfold openCount
    split <;> simp
  · intro bot t bar bot' res h
    simp only [process_bar] at h
    repeat' split at h
    all_goals first
      | exact Except.noConfusion h
      | (rw [Except.ok.injEq, Prod.mk.injEq] at h
         obtain ⟨hS, hr⟩ := h
         subst hS
         subst hr
         refine ⟨fun tr htr => ?_, fun tr htr => ?_⟩ <;> simp_all)

/-- Witness for C2: a concrete closing call (Scenario B) leaves the MNQ
slot empty. -/
theorem C2_at_most_one_open_trade_witness :
    openCount (run (TradingBot.init ["MNQ"] 2) []) "MNQ" ≤ 1 :=
  C2_at_most_one_open_trade.1 ["MNQ"] 2 [] "MNQ"

/-- C4: the strong-volume gate.  When no exit fires on this bar (either
no trade is open, or the open trade's levels are strictly missed) and the
bar's volume is below 1.5 times the rolling average volume (the average
the code computes, over the history with this bar's volume already
appended), `process_bar` creates no trade: it returns `none` and the
resulting state differs from the input state only in the appended volume
history — open slots and the completed-trades log are untouched. -/
theorem C4_weak_volume_no_entry
    (bot : TradingBot) (t : String) (bar : Bar) (vols : List ℚ)
    (hv : bot.volume_history t = some vols)
    (hnoexit : ∀ levels tr, bot.premarket_levels t = some levels →
        bot.open_trades t = some tr →
        tr.stop_loss < bar.low ∧ bar.high < tr.take_profit)
    (hweak : bar.volume < calculate_average_volume (vols ++ [bar.volume]) * (3/2)) :
    process_bar bot t bar = .ok
      ({ bot with volume_history := fun s =>
          if s = t then some (vols ++ [bar.volume]) else bot.volume_history s },
        none) := by
  rcases hl : bot.premarket_levels t with _ | levels
  · simp only [process_bar, hv, hl]
  · rcases ho : bot.open_trades t with _ | tr
    · have hs : is_strong_volume bar.volume
          (calculate_average_volume (vols ++ [bar.volume])) = false := by
        simp only [is_strong_volume, decide_eq_false_iff_not, ge_iff_le, not_le]
        exact hweak
      by_cases ht : 570 ≤ bar.timestamp.minutes
      · simp [process_bar, hv, hl, ho, ht, hs]
      · simp [process_bar, hv, hl, ho, ht]
    · obtain ⟨h1, h2⟩ := hnoexit levels tr hl ho
      have he : exit_level tr bar = none := by
        simp only [exit_level, if_neg (not_le.mpr h1), ge_iff_le,
          if_neg (not_le.mpr h2)]
      simp [process_bar, hv, hl, ho, he]

/-- A FLAT state for MNQ with two strong prior volume observations. -/
def c4_bot : TradingBot :=
  { tickers := ["MNQ"], risk_reward := 2,
    premarket_levels := fun s => if s = "MNQ" then some mnqLevels else none,
    completed_trades := [],
    volume_history := fun s => if s = "MNQ" then some [10000, 10000] else none,
    open_trades := fun _ => none }

/-- A breakout-priced bar on weak volume (1000 against average 7000). -/
def c4_bar : Bar :=
  { timestamp := ⟨0, 580⟩, open_price := 16005, high := 16025, low := 16000,
    close := 16020, volume := 1000 }

/-- Witness for C4: a breakout-priced bar (close 16020 above the 16010
premarket high, after 09:30) on weak volume (1000 against a rolling
average of 7000) opens nothing and returns `none`. -/
theorem C4_weak_volume_no_entry_witness :
    c4_bar.volume < calculate_average_volume ([10000, 10000] ++ [c4_bar.volume]) * (3/2)
    ∧ process_bar c4_bot "MNQ" c4_bar = .ok
        ({ c4_bot with volume_history := fun s =>
            if s = "MNQ" then some ([10000, 10000] ++ [c4_bar.volume])
            else c4_bot.volume_history s },
          none) := by
  refine ⟨by norm_num [calculate_average_volume, c4_bar], ?_⟩
  exact C4_weak_volume_no_entry c4_bot "MNQ" c4_bar [10000, 10000] rfl
    (fun levels tr _ h => Option.noConfusion h)
    (by norm_num [calculate_average_volume, c4_bar])

/-- C5 counterexample: with the default configuration, premarket high
16010 and an entry close of 16020 (the Scenario A numbers), the LONG
trade the code opens carries `stop_loss = 15993.99` and
`take_profit = 16072.02`, not the 15994.01 / 16071.98 the claim quotes. -/
theorem C5_scenario_a_counterexample :
    opened_after scenarioA_bot "MNQ" scenarioA_bar
      = some (openLong "MNQ" mnqLevels scenarioA_bar 2)
    ∧ (openLong "MNQ" mnqLevels scenarioA_bar 2).stop_loss = 1599399/100
    ∧ ¬ (openLong "MNQ" mnqLevels scenarioA_bar 2).stop_loss = 1599401/100
    ∧ (openLong "MNQ" mnqLevels scenarioA_bar 2).take_profit = 1607202/100
    ∧ ¬ (openLong "MNQ" mnqLevels scenarioA_bar 2).take_profit = 1607198/100 := by
  refine ⟨?_, ?_, ?_, ?_, ?_⟩
  · norm_num [opened_after, step, process_bar, scenarioA_bot, scenarioA_bar,
      is_strong_volume, calculate_average_volume, mnqLevels]
  · norm_num [openLong, scenarioA_bar, mnqLevels, STOP_LOSS_BUFFER]
  · norm_num [openLong, scenarioA_bar, mnqLevels, STOP_LOSS_BUFFER]
  · norm_num [openLong, scenarioA_bar, mnqLevels, STOP_LOSS_BUFFER]
  · norm_num [openLong, scenarioA_bar, mnqLevels, STOP_LOSS_BUFFER]

/-- C5 (amended): LONG entry postcondition.  From a FLAT state with
levels present, a bar at or after 09:30 that passes the strong-volume
gate and closes above the premarket high opens a LONG trade with
`entry = close`, `stop_loss = high * (1 - STOP_LOSS_BUFFER)` and
`take_profit = entry + (entry - stop_loss) * risk_reward`, and the call
returns `none`; symmetrically, a close below the premarket low (and not
above the high) opens a SHORT with `stop_loss = low * (1 + STOP_LOSS_BUFFER)`.
With the defaults and high 16010, close 16020 this gives stop 15993.99
and target 16072.02 (see the witness), not the claim's quoted numbers. -/
theorem C5_long_entry_postcondition
    (bot : TradingBot) (t : String) (bar : Bar) (vols : List ℚ)
    (levels : PremarketLevels)
    (hv : bot.volume_history t = some vols)
    (hl : bot.premarket_levels t = some levels)
    (ho : bot.open_trades t = none)
    (ht : 570 ≤ bar.timestamp.minutes)
    (hgate : calculate_average_volume (vols ++ [bar.volume]) * (3/2) ≤ bar.volume) :
    (levels.high < bar.close →
        process_bar bot t bar = .ok
          ({ bot with
              volume_history := fun s =>
                if s = t then some (vols ++ [bar.volume]) else bot.volume_history s
              open_trades := fun s =>
                if s = t then some (openLong t levels bar bot.risk_reward)
                else bot.open_trades s },
            none)
        ∧ (openLong t levels bar bot.risk_reward).entry_price = bar.close
        ∧ (openLong t levels bar bot.risk_reward).stop_loss
            = levels.high * (1 - STOP_LOSS_BUFFER)
        ∧ (openLong t levels bar bot.risk_reward).take_profit
            = bar.close + (bar.close - levels.high * (1 - STOP_LOSS_BUFFER))
                * bot.risk_reward)
    ∧ (bar.close ≤ levels.high → bar.close < levels.low →
        process_bar bot t bar = .ok
          ({ bot with
              volume_history := fun s =>
                if s = t then some (vols ++ [bar.volume]) else bot.volume_history s
              open_trades := fun s =>
                if s = t then some (openShort t levels bar bot.risk_reward)
                else bot.open_trades s },
            none)
        ∧ (openShort t levels bar bot.risk_reward).stop_loss
            = levels.low * (1 + STOP_LOSS_BUFFER)) := by
  have hs : is_strong_volume bar.volume
      (calculate_average_volume (vols ++ [bar.volume])) = true := by
    simp only [is_strong_volume, decide_eq_true_eq, ge_iff_le]
    exact hgate
  constructor
  · intro hclose
    refine ⟨?_, ?_, ?_, ?_⟩
    · simp [process_bar, hv, hl, ho, ht, hs, hclose]
    · rfl
    · simp only [openLong]
      ring
    · simp only [openLong]
      ring
  · intro hle hlow
    refine ⟨?_, ?_⟩
    · simp [process_bar, hv, hl, ho, ht, hs, not_lt.mpr hle, hlow]
    · simp only [openShort]
      ring

/-- Witness for C5 at the Scenario A input: high 16010, close 16020,
volume 10000 against average 5000; the opened LONG has stop 15993.99 and
target 16072.02. -/
theorem C5_long_entry_postcondition_witness :
    (570 : Nat) ≤ scenarioA_bar.timestamp.minutes
    ∧ calculate_average_volume ([0] ++ [scenarioA_bar.volume]) * (3/2)
        ≤ scenarioA_bar.volume
    ∧ mnqLevels.high < scenarioA_bar.close
    ∧ process_bar scenarioA_bot "MNQ" scenarioA_bar = .ok
        ({ scenarioA_bot with
            volume_history := fun s =>
              if s = "MNQ" then some ([0] ++ [scenarioA_bar.volume])
              else scenarioA_bot.volume_history s
            open_trades := fun s =>
              if s = "MNQ" then some (openLong "MNQ" mnqLevels scenarioA_bar
                scenarioA_bot.risk_reward)
              else scenarioA_bot.open_trades s },
          none)
    ∧ (openLong "MNQ" mnqLevels scenarioA_bar scenarioA_bot.risk_reward).stop_loss
        = 1599399/100
    ∧ (openLong "MNQ" mnqLevels scenarioA_bar scenarioA_bot.risk_reward).take_profit
        = 1607202/100 := by
  refine ⟨by norm_num [scenarioA_bar], by norm_num [calculate_average_volume, scenarioA_bar],
    by norm_num [mnqLevels, scenarioA_bar], ?_, ?_, ?_⟩
  · exact ((C5_long_entry_postcondition scenarioA_bot "MNQ" scenarioA_bar [0]
      mnqLevels rfl rfl rfl (by norm_num [scenarioA_bar])
      (by norm_num [calculate_average_volume, scenarioA_bar])).1
      (by norm_num [mnqLevels, scenarioA_bar])).1
  · norm_num [openLong, scenarioA_bar, mnqLevels, scenarioA_bot, STOP_LOSS_BUFFER]
  · norm_num [openLong, scenarioA_bar, mnqLevels, scenarioA_bot, STOP_LOSS_BUFFER]

/-- An op supplies no premarket data for ticker `t`: any `update` call it
makes for `t` has an empty premarket filter (plain bars are unrestricted). -/
def no_premarket_for (t : String) : Op → Prop
  | .update s data _ => s = t → data.filter in_premarket_window = []
  | .bar _ _ => True

/-- An `update_premarket_levels` call whose filter is empty is a no-op on
the state (it only warns). -/
theorem update_empty_filter_state (bot : TradingBot) (t : String)
    (data : List Bar) (day : Int)
    (h : data.filter in_premarket_window = []) :
    update_premarket_levels bot t data day = (bot, true) := by
  unfold update_premarket_levels
  rw [h]

/-- An `update_premarket_levels` call for one ticker leaves every other
ticker's stored levels unchanged. -/
theorem update_keeps_other_levels (bot : TradingBot) (tk s : String)
    (data : List Bar) (day : Int) (hs : s ≠ tk) :
    (update_premarket_levels bot tk data day).1.premarket_levels s
      = bot.premarket_levels s := by
  unfold update_premarket_levels
  rcases hf : data.filter in_premarket_window with _ | ⟨b, bs⟩
  · rfl
  · simp [hs]

/-- A successful `process_bar` call never touches the stored premarket
levels. -/
theorem process_bar_keeps_levels (bot : TradingBot) (t : String) (bar : Bar)
    (bot' : TradingBot) (res : Option Trade)
    (h : process_bar bot t bar = .ok (bot', res)) :
    bot'.premarket_levels = bot.premarket_levels := by
  simp only [process_bar] at h
  repeat' split at h
  all_goals first
    | exact Except.noConfusion h
    | (rw [Except.ok.injEq, Prod.mk.injEq] at h
       obtain ⟨hS, _⟩ := h
       subst hS
       rfl)

/-- One step that supplies no premarket data for `t` keeps `t` level-free. -/
theorem step_keeps_no_levels (bot : TradingBot) (t : String) (op : Op)
    (h : bot.premarket_levels t = none) (hop : no_premarket_for t op) :
    (step bot op).premarket_levels t = none := by
  cases op with
  | update s data day =>
      by_cases hst : s = t
      · subst hst
        rw [step, update_empty_filter_state bot s data day (hop rfl)]
        exact h
      · rw [step, update_keeps_other_levels bot s t data day (Ne.symm hst)]
        exact h
  | bar s b =>
      rcases hr : process_bar bot s b with e | ⟨bot', r⟩ <;>
        simp only [step, hr]
      · exact h
      · rw [process_bar_keeps_levels bot s b bot' r hr]
        exact h

/-- A whole run that supplies no premarket data for `t` keeps `t`
level-free. -/
theorem run_keeps_no_levels (ops : List Op) :
    ∀ (bot : TradingBot) (t : String), bot.premarket_levels t = none →
      (∀ op ∈ ops, no_premarket_for t op) →
      (run bot ops).premarket_levels t = none := by
  induction ops with
  | nil => intro bot t h _; exact h
  | cons op ops ih =>
      intro bot t h hops
      exact ih (step bot op) t
        (step_keeps_no_levels bot t op h (hops op (List.mem_cons_self op ops)))
        (fun o ho => hops o (List.mem_cons_of_mem op ho))

/-- C7: an instrument that received no premarket data stays non-tradable.
Starting from a fresh engine, if every `update_premarket_levels` call for
the instrument in the session had an empty premarket filter, the
instrument never acquires levels; and every `process_bar` call made while
the instrument has no levels returns `none` and changes nothing but the
appended volume history — no entry, no exit, no trade exposed, whatever
the bar's breakout shape. -/
theorem C7_no_levels_returns_null :
    (∀ (tickers : List String) (rr : ℚ) (t : String) (ops : List Op),
        (∀ op ∈ ops, no_premarket_for t op) →
        (run (TradingBot.init tickers rr) ops).premarket_levels t = none)
    ∧ (∀ (bot : TradingBot) (t : String) (bar : Bar) (vols : List ℚ),
        bot.premarket_levels t = none → bot.volume_history t = some vols →
        process_bar bot t bar = .ok
          ({ bot with volume_history := fun s =>
              if s = t then some (vols ++ [bar.volume]) else bot.volume_history s },
            none)) := by
  constructor
  · intro tickers rr t ops hops
    exact run_keeps_no_levels ops (TradingBot.init tickers rr) t rfl hops
  · intro bot t bar vols hl hv
    simp only [process_bar, hv, hl]

/-- Witness for C7: a session whose only update call for MNQ carries no
premarket bars leaves MNQ without levels after the run, and a strongly
breakout-shaped bar processed in that state returns `none`. -/
theorem C7_no_levels_returns_null_witness :
    (∀ op ∈ ([Op.update "MNQ" [] 3, Op.bar "MNQ" scenarioA_bar] : List Op),
        no_premarket_for "MNQ" op)
    ∧ (run (TradingBot.init ["MNQ"] 2)
        [Op.update "MNQ" [] 3, Op.bar "MNQ" scenarioA_bar]).premarket_levels "MNQ"
        = none
    ∧ process_bar (TradingBot.init ["MNQ"] 2) "MNQ" scenarioA_bar = .ok
        ({ TradingBot.init ["MNQ"] 2 with
            volume_history := fun s =>
              if s = "MNQ" then some ([] ++ [scenarioA_bar.volume])
              else (TradingBot.init ["MNQ"] 2).volume_history s },
          none) := by
  have hops : ∀ op ∈ ([Op.update "MNQ" [] 3, Op.bar "MNQ" scenarioA_bar] : List Op),
      no_premarket_for "MNQ" op := by
    intro op hop
    simp only [List.mem_cons, List.not_mem_nil, or_false] at hop
    rcases hop with h | h <;> subst h
    · exact fun _ => rfl
    · trivial
  exact ⟨hops,
    C7_no_levels_returns_null.1 ["MNQ"] 2 "MNQ" _ hops,
    C7_no_levels_returns_null.2 (TradingBot.init ["MNQ"] 2) "MNQ" scenarioA_bar []
      rfl rfl⟩

/-- A premarket bar of session day 5 (09:00 falls inside the window). -/
def pm_bar : Bar :=
  { timestamp := ⟨5, 300⟩, open_price := 16000, high := 16010, low := 15990,
    close := 16000, volume := 1000 }

/-- C8 (code behavior at the failing input): replaying the premarket bars
of session day 5 while the wall clock reads day 7 stores levels with
high = the filtered bars' max high and low = their min low, but stamped
with the wall-clock day 7 — `datetime.now().date()` — not the session
day 5 being processed, contradicting the claim's date requirement. -/
theorem C8_wall_clock_date_stamp :
    (update_premarket_levels (TradingBot.init ["MNQ"] 2) "MNQ" [pm_bar]
        7).1.premarket_levels "MNQ" = some ⟨16010, 15990, 7⟩
    ∧ pm_bar.timestamp.day = 5
    ∧ (7 : Int) ≠ 5 := by
  refine ⟨?_, rfl, by decide⟩
  norm_num [update_premarket_levels, pm_bar, in_premarket_window,
    TradingBot.init, List.filter]

/-- C9: the exit comparison is direction-blind.  A SHORT trade opened by
the code carries `stop_loss = levels.low * (1 + STOP_LOSS_BUFFER)`, which
sits strictly above both its entry and its take-profit (for a positive
premarket low and non-negative risk-reward); because `process_bar` tests
`bar.low <= stop_loss` first for every direction and never checks that
the level lies inside the bar's range, any bar with
`bar.low <= stop_loss` — even one whose high stays strictly below the
stop — closes the trade at the stop with a strictly negative pnl, a fill
price the bar never reached. -/
theorem C9_short_exit_at_unreached_stop
    (bot : TradingBot) (t : String) (bar : Bar) (vols : List ℚ)
    (levels : PremarketLevels) (tr : Trade) (rr : ℚ)
    (hv : bot.volume_history t = some vols)
    (hl : bot.premarket_levels t = some levels)
    (ho : bot.open_trades t = some tr)
    (hdir : tr.direction = Direction.SHORT)
    (hslf : tr.stop_loss = levels.low + levels.low * STOP_LOSS_BUFFER)
    (hentry : tr.entry_price < levels.low)
    (hLpos : 0 < levels.low)
    (htpf : tr.take_profit = tr.entry_price - (tr.stop_loss - tr.entry_price) * rr)
    (hrr : 0 ≤ rr)
    (hlow : bar.low ≤ tr.stop_loss)
    (hunreached : bar.high < tr.stop_loss) :
    process_bar bot t bar = .ok
      ({ bot with
          volume_history := fun s =>
            if s = t then some (vols ++ [bar.volume]) else bot.volume_history s
          completed_trades :=
            bot.completed_trades ++ [closeTrade tr tr.stop_loss bar.timestamp]
          open_trades := fun s => if s = t then none else bot.open_trades s },
        some (closeTrade tr tr.stop_loss bar.timestamp))
    ∧ tr.entry_price < tr.stop_loss
    ∧ tr.take_profit < tr.stop_loss
    ∧ (closeTrade tr tr.stop_loss bar.timestamp).pnl
        = some ((tr.entry_price - tr.stop_loss) * POSITION_SIZE)
    ∧ (tr.entry_price - tr.stop_loss) * POSITION_SIZE < 0 := by
  have hbuf : (0 : ℚ) < levels.low * STOP_LOSS_BUFFER := by
    rw [STOP_LOSS_BUFFER]
    exact mul_pos hLpos (by norm_num)
  have hes : tr.entry_price < tr.stop_loss := by
    rw [hslf]
    linarith
  have htps : tr.take_profit < tr.stop_loss := by
    rw [htpf]
    have hnn : 0 ≤ (tr.stop_loss - tr.entry_price) * rr :=
      mul_nonneg (by linarith) hrr
    linarith
  refine ⟨?_, hes, htps, ?_, ?_⟩
  · simp only [process_bar, hv, hl, ho, exit_level, hlow, if_true, if_pos]
  · simp [closeTrade, hdir]
  · rw [POSITION_SIZE, mul_one]
    linarith

/-- The premarket band of the C9 witness: low 15990. -/
def c9_levels : PremarketLevels := ⟨16050, 15990, 0⟩

/-- The SHORT trade the code opens below the 15990 premarket low with the
default buffer and risk-reward 2: entry 15980, stop 16005.99 (above the
entry), target 15928.02. -/
def c9_trade : Trade :=
  { ticker := "MNQ", direction := Direction.SHORT, entry_price := 15980,
    stop_loss := 1600599/100, take_profit := 1592802/100,
    entry_time := ⟨0, 570⟩ }

/-- A state for MNQ with the C9 SHORT trade open. -/
def c9_bot : TradingBot :=
  { tickers := ["MNQ"], risk_reward := 2,
    premarket_levels := fun s => if s = "MNQ" then some c9_levels else none,
    completed_trades := [],
    volume_history := fun s => if s = "MNQ" then some [0, 10000] else none,
    open_trades := fun s => if s = "MNQ" then some c9_trade else none }

/-- A bar whose whole range [15970, 15975] lies strictly below the
16005.99 stop of the open SHORT trade. -/
def c9_bar : Bar :=
  { timestamp := ⟨0, 575⟩, open_price := 15972, high := 15975, low := 15970,
    close := 15973, volume := 100 }

/-- Witness for C9: the bar [15970, 15975] — entirely below the 16005.99
stop — still closes the SHORT trade at 16005.99 with pnl -25.99. -/
theorem C9_short_exit_at_unreached_stop_witness :
    c9_bar.high < c9_trade.stop_loss
    ∧ c9_bar.low ≤ c9_trade.stop_loss
    ∧ process_bar c9_bot "MNQ" c9_bar = .ok
        ({ c9_bot with
            volume_history := fun s =>
              if s = "MNQ" then some ([0, 10000] ++ [c9_bar.volume])
              else c9_bot.volume_history s
            completed_trades := c9_bot.completed_trades ++
              [closeTrade c9_trade c9_trade.stop_loss c9_bar.timestamp]
            open_trades := fun s =>
              if s = "MNQ" then none else c9_bot.open_trades s },
          some (closeTrade c9_trade c9_trade.stop_loss c9_bar.timestamp))
    ∧ (closeTrade c9_trade c9_trade.stop_loss c9_bar.timestamp).pnl
        = some ((c9_trade.entry_price - c9_trade.stop_loss) * POSITION_SIZE)
    ∧ (c9_trade.entry_price - c9_trade.stop_loss) * POSITION_SIZE = -2599/100 := by
  have happ := C9_short_exit_at_unreached_stop c9_bot "MNQ" c9_bar [0, 10000]
    c9_levels c9_trade 2 rfl rfl rfl rfl
    (by norm_num [c9_trade, c9_levels, STOP_LOSS_BUFFER])
    (by norm_num [c9_trade, c9_levels])
    (by norm_num [c9_levels])
    (by norm_num [c9_trade, STOP_LOSS_BUFFER])
    (by norm_num)
    (by norm_num [c9_bar, c9_trade])
    (by norm_num [c9_bar, c9_trade])
  exact ⟨by norm_num [c9_bar, c9_trade], by norm_num [c9_bar, c9_trade],
    happ.1, happ.2.2.2.1,
    by norm_num [c9_trade, POSITION_SIZE]⟩

/-- C10: a ticker outside the constructor's list.  `process_bar` fails on
its very first step — the `self.volume_history[ticker]` lookup, a missing
key — instead of returning null, while `update_premarket_levels` accepts
the unknown ticker and (on any non-empty premarket input) silently adds a
fresh levels entry for it. -/
theorem C10_unknown_ticker_keyerror
    (tickers : List String) (rr : ℚ) (t : String) (bar : Bar)
    (data : List Bar) (day : Int)
    (h : t ∉ tickers) :
    process_bar (TradingBot.init tickers rr) t bar = .error ()
    ∧ (data.filter in_premarket_window ≠ [] →
        ∃ lv, (update_premarket_levels (TradingBot.init tickers rr) t data
          day).1.premarket_levels t = some lv) := by
  constructor
  · simp only [process_bar, TradingBot.init]
    rw [if_neg h]
  · intro hf
    unfold update_premarket_levels
    rcases hfilter : data.filter in_premarket_window with _ | ⟨b, bs⟩
    · exact absurd hfilter hf
    · refine ⟨⟨(bs.map Bar.high).foldl max b.high,
        (bs.map Bar.low).foldl min b.low, day⟩, ?_⟩
      simp

/-- Witness for C10: on a bot built for MNQ only, processing a bar for
SPY raises (KeyError) while supplying premarket data for SPY stores a
levels entry for SPY. -/
theorem C10_unknown_ticker_keyerror_witness :
    ("SPY" ∉ (["MNQ"] : List String))
    ∧ process_bar (TradingBot.init ["MNQ"] 2) "SPY" scenarioA_bar = .error ()
    ∧ ([pm_bar].filter in_premarket_window ≠ [])
    ∧ ∃ lv, (update_premarket_levels (TradingBot.init ["MNQ"] 2) "SPY" [pm_bar]
        0).1.premarket_levels "SPY" = some lv := by
  have h : "SPY" ∉ (["MNQ"] : List String) := by decide
  have happ := C10_unknown_ticker_keyerror ["MNQ"] 2 "SPY" scenarioA_bar
    [pm_bar] 0 h
  exact ⟨h, happ.1, by decide, happ.2 (by decide)⟩
